import Mathlib

/-!
Shallow embedding of the dPad-3D Power BI visual (src/visual.ts).

The repository's one piece of nontrivial logic is the discrete position
navigator implemented by `Visual.step` together with the data-point table
built by `visualTransform`.  This file embeds those functions over integer
arithmetic (JavaScript numbers hold exact integers in the grid/angle ranges
involved) and proves the specified properties of the movement / rotation /
lookup logic.

Modelling conventions:
* `PrimitiveValue`s of the bound categories are integers (the grid indices
  and angles produced by the README's DAX `GENERATESERIES` recipe); their
  JavaScript rendering `v.toString()` / `v + ''` is `toString (v : Int)`.
* A `selectionId` built with `.withMeasure(m)` is identified by the measure
  string `m`, which is exactly what `Visual.step` compares via
  `dataPoint.selectionId.getSelector().metadata`.
* JavaScript `%` on numbers truncates toward zero, i.e. it is `Int.tmod`.
* Fallible JavaScript code (property access on `undefined`) is modelled by
  `Except String`.
-/

/-! ## Data model and operations (the embedding), and the concrete
states and data views used by witnesses and counterexamples -/

/-- Identifier attached to a data point; `metadata` is the measure string
`'X' + h + 'Y' + v + 'V' + r` that `createSelectionIdBuilder().withMeasure`
stores and that `getSelector().metadata` returns (visual.ts lines 169-174,
317). -/
structure SelectionId where
  metadata : String
deriving DecidableEq, Repr

/-- Embeds the `CategoryDataPoint` interface (visual.ts lines 39-42). -/
structure CategoryDataPoint where
  category : String
  selectionId : SelectionId
deriving DecidableEq, Repr

/-- Embeds the inner settings object of the `VisualSettings` interface
(visual.ts lines 67-73). -/
structure SettingsValues where
  horizontal : Bool
  vertical : Bool
  incremental : Int
deriving DecidableEq, Repr

/-- Embeds the `VisualSettings` interface (visual.ts lines 67-73). -/
structure VisualSettings where
  settings : SettingsValues
deriving DecidableEq, Repr

/-- Embeds the `ViewModel` interface (visual.ts lines 50-57).  The fields
`horizontalDataPoints` and `verticalDataPoints` are built by
`visualTransform` from single categories but are never read by `Visual.step`
(visual.ts only renders from them); they are omitted from the model. -/
structure ViewModel where
  dataPoints : List CategoryDataPoint
  numberOfAxis : Int
  sortedBy : String
  settings : VisualSettings
deriving DecidableEq, Repr

/-- Mutable fields of the `Visual` class that the movement logic reads or
writes (visual.ts lines 213-223): the committed pose `lastHorizontal`,
`lastVertical`, `lastRotation`, the unused counter `lastSelected`, the
current view model's data points and the current settings.  The rendering
fields (svg selections) are presentational and omitted. -/
structure VisualState where
  lastSelected : Int
  lastHorizontal : Int
  lastVertical : Int
  lastRotation : Int
  dataPoints : List CategoryDataPoint
  visualSettings : VisualSettings
deriving DecidableEq, Repr

/-- Embeds `Math.round(displacement * Math.sin(this.lastRotation * Math.PI /
180))` with `displacement = 1` (visual.ts line 293) as the exact integer it
evaluates to at the rotations the control can hold (multiples of 45 in
[0, 360), see `reachable_rot_valid`); at those angles the
double-precision result agrees with the exact real value, which is proved in
`roundTrigDeg_eq`. -/
def roundSinDeg (r : Int) : Int :=
  if r % 360 = 45 ∨ r % 360 = 90 ∨ r % 360 = 135 then 1
  else if r % 360 = 225 ∨ r % 360 = 270 ∨ r % 360 = 315 then -1
  else 0

/-- Embeds `Math.round(displacement * Math.cos(this.lastRotation * Math.PI /
180))` with `displacement = 1` (visual.ts line 294); see `roundSinDeg`.
Agreement with the exact real value at the reachable rotations is proved in
`roundTrigDeg_eq`. -/
def roundCosDeg (r : Int) : Int :=
  if r % 360 = 0 ∨ r % 360 = 45 ∨ r % 360 = 315 then 1
  else if r % 360 = 135 ∨ r % 360 = 180 ∨ r % 360 = 225 then -1
  else 0

/-- Embeds the position key `'X' + h + 'Y' + v + 'V' + r` used both when
building selection ids (visual.ts lines 171-173) and when looking up the
target of a move (lines 308-310). -/
def positionMetadata (h v r : Int) : String :=
  "X" ++ toString h ++ "Y" ++ toString v ++ "V" ++ toString r

/-- Embeds the lookup loop of `Visual.step` (visual.ts lines 315-323): scan
`viewModel.dataPoints` in order and return the first selection id whose
selector metadata equals the computed position key (the loop breaks at the
first hit). -/
def findId : List CategoryDataPoint → String → Option SelectionId
  | [], _ => none
  | dp :: rest, md =>
      if dp.selectionId.metadata = md then some dp.selectionId else findId rest md

/-- Embeds the target-pose computation of `Visual.step` (visual.ts lines
284-302): the local variables `newHorizontal`, `newVertical`, `newRotation`
after the `direction` branches, returned as a triple.  `displacement = 1`
and `rotationStep = 45` are the constants of lines 288-289; the rotation
normalization is line 300-301 (`if (newRotation < 0) newRotation += 360;
else newRotation = newRotation % 360`, JavaScript `%` being `Int.tmod`). -/
def stepTarget (s : VisualState) (direction : String) (step : Int) :
    Int × Int × Int :=
  if direction = "d" then
    (s.lastHorizontal + roundSinDeg s.lastRotation * step,
     s.lastVertical + roundCosDeg s.lastRotation * step,
     s.lastRotation)
  else if direction = "r" then
    let newRotation := s.lastRotation + 45 * step
    (s.lastHorizontal, s.lastVertical,
     if newRotation < 0 then newRotation + 360 else Int.tmod newRotation 360)
  else
    (s.lastHorizontal, s.lastVertical, s.lastRotation)

/-- Embeds `Visual.step` (visual.ts lines 282-332): compute the target pose,
build its position key, search the data points; on a hit call
`selectionManager.select` (modelled as the emitted list) and commit the
target pose, otherwise leave the state unchanged and emit nothing.  The
returned pair is (state after the call, selection events emitted during the
call, in order). -/
def Visual.step (s : VisualState) (direction : String) (step : Int) :
    VisualState × List SelectionId :=
  let t := stepTarget s direction step
  let newPositionMetadata := positionMetadata t.1 t.2.1 t.2.2
  match findId s.dataPoints newPositionMetadata with
  | some newSelectionId =>
      ({ s with lastHorizontal := t.1, lastVertical := t.2.1, lastRotation := t.2.2 },
       [newSelectionId])
  | none => (s, [])

/-- Embeds the state effect of `Visual.update` (visual.ts lines 261-264):
store the view model produced by `visualTransform` and its settings.  The
remaining lines only move svg attributes and are presentational. -/
def Visual.update (s : VisualState) (vm : ViewModel) : VisualState :=
  { s with dataPoints := vm.dataPoints, visualSettings := vm.settings }

/-- State established by the `Visual` constructor (visual.ts lines 225-231):
`lastSelected = 0`, pose (1, 1, 0).  The constructor leaves `viewModel` and
`visualSettings` undefined until the first `update`; they are modelled as an
empty table and the configuration defaults of visual.ts lines 152-154 (a
`step` before the first `update` throws in JavaScript and is a no-op here;
no claim depends on that window). -/
def initialVisualState : VisualState :=
  { lastSelected := 0
    lastHorizontal := 1
    lastVertical := 1
    lastRotation := 0
    dataPoints := []
    visualSettings := { settings := { horizontal := true, vertical := true, incremental := 1 } } }

/-- States the control can be in: the constructor state, followed by any
interleaving of data refreshes (`Visual.update` with an arbitrary view
model) and button presses (`Visual.step`; the four buttons of visual.ts
lines 243-244 only ever pass `step = 1` or `step = -1`). -/
inductive Reachable : VisualState → Prop
  | init : Reachable initialVisualState
  | update (s : VisualState) (vm : ViewModel) :
      Reachable s → Reachable (Visual.update s vm)
  | move (s : VisualState) (direction : String) (step : Int) :
      Reachable s → step = 1 ∨ step = -1 → Reachable (Visual.step s direction step).1

/-- States reachable when the table loaded by the first refresh stays fixed
for the control's lifetime: constructor plus one `update` loading `dps` and
`vs`, then any sequence of button presses and no further refresh. -/
inductive ReachableFrom (dps : List CategoryDataPoint) (vs : VisualSettings) :
    VisualState → Prop
  | init : ReachableFrom dps vs
      { lastSelected := 0, lastHorizontal := 1, lastVertical := 1, lastRotation := 0,
        dataPoints := dps, visualSettings := vs }
  | move (s : VisualState) (direction : String) (step : Int) :
      ReachableFrom dps vs s → ReachableFrom dps vs (Visual.step s direction step).1

/-- State for the witness of `move_not_found_noop`: the spec's own test —
table containing only (1,1,0), current pose (1,1,0). -/
def c3State : VisualState :=
  { initialVisualState with dataPoints := [⟨"1", ⟨"X1Y1V0"⟩⟩] }

/-- State for the witness of `move_found_commits`: the spec's own test —
table {(1,1,0), (1,2,0)}, current pose (1,1,0). -/
def c4State : VisualState :=
  { initialVisualState with dataPoints := [⟨"1", ⟨"X1Y1V0"⟩⟩, ⟨"2", ⟨"X1Y2V0"⟩⟩] }

/-- State for the witness of `unknown_direction_frame`: current pose (1,1,0)
present in the table. -/
def c10State : VisualState :=
  { initialVisualState with dataPoints := [⟨"1", ⟨"X1Y1V0"⟩⟩] }

/-- View model used by the counterexample to C6: the table holds only the
pose (1, 1, 315). -/
def c6Vm : ViewModel :=
  { dataPoints := [⟨"1", ⟨"X1Y1V315"⟩⟩], numberOfAxis := 3, sortedBy := "horizontal",
    settings := { settings := { horizontal := true, vertical := true, incremental := 1 } } }

/-- Reachable state refuting C6 as stated. -/
def c6State : VisualState := Visual.update initialVisualState c6Vm

/-- View model for the witness of `rotate_roundtrip_amended`: both rotate
targets (1, 1, 45) and back (1, 1, 0) are present, so both moves commit. -/
def c6WitVm : ViewModel :=
  { dataPoints := [⟨"1", ⟨"X1Y1V0"⟩⟩, ⟨"2", ⟨"X1Y1V45"⟩⟩], numberOfAxis := 3,
    sortedBy := "horizontal",
    settings := { settings := { horizontal := true, vertical := true, incremental := 1 } } }

/-- Reachable state for the witness of `rotate_roundtrip_amended`. -/
def c6WitState : VisualState := Visual.update initialVisualState c6WitVm

/-- C7 as stated fails under data refreshes.  View model whose table holds
only (1, 2, 0), target of the first move. -/
def c7Vm : ViewModel :=
  { dataPoints := [⟨"1", ⟨"X1Y2V0"⟩⟩], numberOfAxis := 3, sortedBy := "horizontal",
    settings := { settings := { horizontal := true, vertical := true, incremental := 1 } } }

/-- View model of a later refresh that drops every record. -/
def c7VmEmpty : ViewModel :=
  { dataPoints := [], numberOfAxis := 3, sortedBy := "horizontal",
    settings := { settings := { horizontal := true, vertical := true, incremental := 1 } } }

/-- Reachable state refuting C7 as stated: load {(1,2,0)}, successfully move
to (1,2,0), then refresh with an empty table. -/
def c7State : VisualState :=
  Visual.update (Visual.step (Visual.update initialVisualState c7Vm) "d" 1).1 c7VmEmpty

/-- Table used by the counterexample to C8: both (1, 2, 0) — one unit away —
and (1, 3, 0) — two units away — are valid poses. -/
def c8Table : List CategoryDataPoint := [⟨"1", ⟨"X1Y2V0"⟩⟩, ⟨"2", ⟨"X1Y3V0"⟩⟩]

/-- State with step-increment 1 at pose (1, 1, 0). -/
def c8StateOne : VisualState :=
  { initialVisualState with
    dataPoints := c8Table,
    visualSettings := { settings := { horizontal := true, vertical := true, incremental := 1 } } }

/-- State with step-increment 2 at pose (1, 1, 0). -/
def c8StateTwo : VisualState :=
  { initialVisualState with
    dataPoints := c8Table,
    visualSettings := { settings := { horizontal := true, vertical := true, incremental := 2 } } }

/-- Embeds a column of `dataViews[0].metadata.columns` (visual.ts lines
95-107): its display name and the names of the data roles it carries. -/
structure MetadataColumn where
  displayName : String
  roles : List String
deriving DecidableEq, Repr

/-- Embeds a column of `dataViews[0].categorical.categories` (visual.ts
lines 109-144): its `source.displayName` and its values (integers, per the
modelling conventions above). -/
structure CategoryColumn where
  displayName : String
  values : List Int
deriving DecidableEq, Repr

/-- Embeds `dataViews[0].metadata.objects.settings` as far as
`visualTransform` reads it (visual.ts lines 150-156): each property is
present or absent. -/
structure SettingsObject where
  horizontal : Option Bool
  vertical : Option Bool
  incremental : Option Int
deriving DecidableEq, Repr

/-- Embeds `options.dataViews[0]` as far as `visualTransform` reads it:
metadata columns, categorical categories, and the optional settings
object. -/
structure DataView where
  metadataColumns : List MetadataColumn
  categories : List CategoryColumn
  objects : Option SettingsObject
deriving DecidableEq, Repr

/-- Modelled from the spec: `getValue(objects, objectName, propertyName,
defaultValue)` is imported by visual.ts from the repository's
`objectEnumerationUtility.ts`, which is not part of the snapshot; per the
spec (§6) the configuration toggles are "read each refresh" with the
defaults of visual.ts lines 152-154, so it returns the configured value
when present and the supplied default otherwise. -/
def getValue {α : Type} (configured : Option α) (defaultValue : α) : α :=
  configured.getD defaultValue

/-- Accumulator of the first loop of `visualTransform` (visual.ts lines
86-107): the display names resolved for the three roles and the `sortedBy`
marker. -/
structure RoleNames where
  horizontalDisplayName : String
  verticalDisplayName : String
  rotationDisplayName : String
  sortedBy : String
deriving DecidableEq, Repr

/-- Embeds the first loop of `visualTransform` (visual.ts lines 95-107):
walk the metadata columns with their index, record the display name of the
first-matching role branch (`hasOwnProperty` on `horizontalCategory`,
`verticalCategory`, `rotationCategory` in an else-if chain), and set
`sortedBy` when the column index is 0. -/
def scanMetadata : List MetadataColumn → Nat → RoleNames → RoleNames
  | [], _, acc => acc
  | c :: rest, i, acc =>
      scanMetadata rest (i + 1)
        (if c.roles.contains "horizontalCategory" then
          { acc with
            horizontalDisplayName := c.displayName,
            sortedBy := if i = 0 then "horizontal" else acc.sortedBy }
         else if c.roles.contains "verticalCategory" then
          { acc with
            verticalDisplayName := c.displayName,
            sortedBy := if i = 0 then "vertical" else acc.sortedBy }
         else if c.roles.contains "rotationCategory" then
          { acc with rotationDisplayName := c.displayName }
         else acc)

/-- Embeds the second loop of `visualTransform` (visual.ts lines 109-117):
walk the category columns with their index and record, in an else-if chain,
the index whose display name matches each resolved role name.  The indices
start at -1, meaning "not found". -/
def scanCategories : List CategoryColumn → Int → RoleNames → Int × Int × Int → Int × Int × Int
  | [], _, _, acc => acc
  | c :: rest, i, names, acc =>
      scanCategories rest (i + 1) names
        (if c.displayName = names.horizontalDisplayName then (i, acc.2.1, acc.2.2)
         else if c.displayName = names.verticalDisplayName then (acc.1, i, acc.2.2)
         else if c.displayName = names.rotationDisplayName then (acc.1, acc.2.1, i)
         else acc)

/-- Converts a possibly-undefined JavaScript value to `Except`: reading a
property of `undefined` throws a `TypeError`. -/
def optionToExcept {α : Type} (o : Option α) (msg : String) : Except String α :=
  match o with
  | some a => Except.ok a
  | none => Except.error msg

/-- Embeds the data-point loop of `visualTransform` (visual.ts lines
165-176): for each value of `categories[0]` build a data point whose
selection id carries the measure string
`'X' + horizontalCategory.values[i] + 'Y' + verticalCategory.values[i] +
'V' + rotationCategory.values[i]`.  When one of the three category columns
was not resolved it is `undefined` in JavaScript and the property access in
the loop body throws; likewise when its value at index `i` is missing. -/
def buildDataPoints : List Int → Option CategoryColumn → Option CategoryColumn →
    Option CategoryColumn → Nat → Except String (List CategoryDataPoint)
  | [], _, _, _, _ => Except.ok []
  | v :: rest, hCat, vCat, rCat, i => do
      let hc ← optionToExcept hCat "TypeError: horizontalCategory is undefined"
      let hv ← optionToExcept hc.values[i]? "TypeError: cannot read toString of undefined"
      let vc ← optionToExcept vCat "TypeError: verticalCategory is undefined"
      let vv ← optionToExcept vc.values[i]? "TypeError: cannot read toString of undefined"
      let rc ← optionToExcept rCat "TypeError: rotationCategory is undefined"
      let rv ← optionToExcept rc.values[i]? "TypeError: cannot read toString of undefined"
      let rest2 ← buildDataPoints rest hCat vCat rCat (i + 1)
      Except.ok
        ({ category := toString v,
           selectionId :=
             { metadata := "X" ++ toString hv ++ "Y" ++ toString vv ++ "V" ++ toString rv } }
          :: rest2)

/-- Embeds `visualTransform` (visual.ts lines 83-210): resolve role display
names, resolve category indices, count the axes, read the settings with
their defaults, then build the data points from `categories[0].values`
(line 165 — accessing `categories[0]` when no category exists throws).
The `horizontalDataPoints` / `verticalDataPoints` render lists are omitted
(see `ViewModel`). -/
def visualTransform (dv : DataView) : Except String ViewModel :=
  let names := scanMetadata dv.metadataColumns 0 ⟨"", "", "", ""⟩
  let idxs := scanCategories dv.categories 0 names (-1, -1, -1)
  let horizontalCategory :=
    if idxs.1 > -1 then dv.categories[idxs.1.toNat]? else none
  let verticalCategory :=
    if idxs.2.1 > -1 then dv.categories[idxs.2.1.toNat]? else none
  let rotationCategory :=
    if idxs.2.2 > -1 then dv.categories[idxs.2.2.toNat]? else none
  let numberOfAxis : Int :=
    (if idxs.1 > -1 then 1 else 0) + (if idxs.2.1 > -1 then 1 else 0) +
      (if idxs.2.2 > -1 then 1 else 0)
  let visualSettings : VisualSettings :=
    { settings :=
        { horizontal := getValue (dv.objects.bind SettingsObject.horizontal) true,
          vertical := getValue (dv.objects.bind SettingsObject.vertical) true,
          incremental := getValue (dv.objects.bind SettingsObject.incremental) 1 } }
  match dv.categories[0]? with
  | none => Except.error "TypeError: cannot read values of undefined"
  | some cat0 => do
      let dataPoints ← buildDataPoints cat0.values horizontalCategory verticalCategory
        rotationCategory 0
      Except.ok
        { dataPoints := dataPoints, numberOfAxis := numberOfAxis,
          sortedBy := names.sortedBy, settings := visualSettings }

/-- Data view refuting C9 as stated: the vertical category role is absent
while the bound data has one row. -/
def c9MalformedDV : DataView :=
  { metadataColumns := [⟨"H", ["horizontalCategory"]⟩, ⟨"R", ["rotationCategory"]⟩],
    categories := [⟨"H", [1]⟩, ⟨"R", [0]⟩],
    objects := none }

/-- Data view for the amended C9: all-empty rows (the first category column
has no values), so the loop never touches the missing role. -/
def c9EmptyRowsDV : DataView :=
  { metadataColumns := [⟨"H", ["horizontalCategory"]⟩],
    categories := [⟨"H", []⟩],
    objects := none }

/-- State for the witness of `translate_formula`: pose (1, 1, 90). -/
def c1State : VisualState := { initialVisualState with lastRotation := 90 }

/-- Table for the witness of the amended C7: a single record (1, 2, 0) — in
particular one record per position combination, as the spec's PositionTable
has. -/
def c7WitTable : List CategoryDataPoint := [⟨"1", ⟨"X1Y2V0"⟩⟩]

/-- State for the witness of the amended C7: the control loaded with
`c7WitTable`, after one successful translate from the default pose to
(1, 2, 0). -/
def c7WitState : VisualState :=
  (Visual.step
    { lastSelected := 0, lastHorizontal := 1, lastVertical := 1, lastRotation := 0,
      dataPoints := c7WitTable,
      visualSettings :=
        { settings := { horizontal := true, vertical := true, incremental := 1 } } }
    "d" 1).1

/-! ## Theorems -/

theorem findId_eq_some {dps : List CategoryDataPoint} {md : String} {sid : SelectionId}
    (h : findId dps md = some sid) :
    ∃ dp ∈ dps, dp.selectionId = sid ∧ sid.metadata = md := by
  induction dps with
  | nil => simp [findId] at h
  | cons dp rest ih =>
      by_cases hdp : dp.selectionId.metadata = md
      · rw [findId, if_pos hdp] at h
        obtain rfl : dp.selectionId = sid := Option.some_injective _ h
        exact ⟨dp, by simp, rfl, hdp⟩
      · rw [findId, if_neg hdp] at h
        obtain ⟨dp2, hmem, hsel, hmd⟩ := ih h
        exact ⟨dp2, by simp [hmem], hsel, hmd⟩

theorem step_of_findId_none {s : VisualState} {direction : String} {step : Int}
    (h : findId s.dataPoints
        (positionMetadata (stepTarget s direction step).1
          (stepTarget s direction step).2.1 (stepTarget s direction step).2.2) = none) :
    Visual.step s direction step = (s, []) := by
  simp [Visual.step, h]

theorem step_of_findId_some {s : VisualState} {direction : String} {step : Int}
    {sid : SelectionId}
    (h : findId s.dataPoints
        (positionMetadata (stepTarget s direction step).1
          (stepTarget s direction step).2.1 (stepTarget s direction step).2.2) = some sid) :
    Visual.step s direction step =
      ({ s with lastHorizontal := (stepTarget s direction step).1,
                lastVertical := (stepTarget s direction step).2.1,
                lastRotation := (stepTarget s direction step).2.2 }, [sid]) := by
  simp [Visual.step, h]

theorem step_frame (s : VisualState) (direction : String) (step : Int) :
    (Visual.step s direction step).1.dataPoints = s.dataPoints ∧
    (Visual.step s direction step).1.visualSettings = s.visualSettings ∧
    (Visual.step s direction step).1.lastSelected = s.lastSelected := by
  cases h : findId s.dataPoints
      (positionMetadata (stepTarget s direction step).1
        (stepTarget s direction step).2.1 (stepTarget s direction step).2.2) with
  | none => rw [step_of_findId_none h]; exact ⟨rfl, rfl, rfl⟩
  | some sid => rw [step_of_findId_some h]; exact ⟨rfl, rfl, rfl⟩

theorem tmod_360 {a : Int} (h : 0 ≤ a) : Int.tmod a 360 = a % 360 :=
  Int.tmod_eq_emod h (by norm_num)

theorem stepTarget_rotate (s : VisualState) (step : Int)
    (h0 : 0 ≤ s.lastRotation) (h360 : s.lastRotation < 360)
    (hk : step = 1 ∨ step = -1) :
    stepTarget s "r" step =
      (s.lastHorizontal, s.lastVertical, (s.lastRotation + 45 * step) % 360) := by
  have h3 : (if s.lastRotation + 45 * step < 0 then s.lastRotation + 45 * step + 360
      else Int.tmod (s.lastRotation + 45 * step) 360) = (s.lastRotation + 45 * step) % 360 := by
    split_ifs with hneg
    · rcases hk with rfl | rfl <;> omega
    · rw [tmod_360 (by omega)]
  rw [stepTarget, if_neg (by decide), if_pos rfl]
  exact congrArg _ (congrArg _ h3)

theorem stepTarget_rot_valid (s : VisualState) (direction : String) (step : Int)
    (hv : 45 ∣ s.lastRotation ∧ 0 ≤ s.lastRotation ∧ s.lastRotation < 360)
    (hk : step = 1 ∨ step = -1) :
    45 ∣ (stepTarget s direction step).2.2 ∧ 0 ≤ (stepTarget s direction step).2.2 ∧
      (stepTarget s direction step).2.2 < 360 := by
  obtain ⟨hd45, h0, h360⟩ := hv
  by_cases hd : direction = "d"
  · simp [stepTarget, hd]; exact ⟨hd45, h0, h360⟩
  · by_cases hr : direction = "r"
    · subst hr
      rw [stepTarget_rotate s step h0 h360 hk]
      rcases hk with rfl | rfl <;> simp only <;> omega
    · simp [stepTarget, hd, hr]; exact ⟨hd45, h0, h360⟩

theorem reachable_rot_valid {s : VisualState} (h : Reachable s) :
    45 ∣ s.lastRotation ∧ 0 ≤ s.lastRotation ∧ s.lastRotation < 360 := by
  induction h with
  | init => exact ⟨⟨0, by decide⟩, by decide, by decide⟩
  | update s vm hs ih => exact ih
  | move s direction step hs hk ih =>
      cases hfind : findId s.dataPoints
          (positionMetadata (stepTarget s direction step).1
            (stepTarget s direction step).2.1 (stepTarget s direction step).2.2) with
      | none => rw [step_of_findId_none hfind]; exact ih
      | some sid =>
          rw [step_of_findId_some hfind]
          exact stepTarget_rot_valid s direction step ih hk

/-- C2: for every current rotation (every rotation the control can hold
lies in [0, 360), see `reachable_rot_valid`) and every step in {-1, +1},
a rotate move computes the new rotation as (r + 45·step) mod 360 normalized
into [0, 360), leaving horizontal and vertical untouched; in particular
from rotation 0 a +1 rotate targets 45 and from 315 a +1 rotate wraps
to 0. -/
theorem rotate_formula (s : VisualState) (step : Int)
    (h0 : 0 ≤ s.lastRotation) (h360 : s.lastRotation < 360)
    (hk : step = 1 ∨ step = -1) :
    stepTarget s "r" step =
      (s.lastHorizontal, s.lastVertical, (s.lastRotation + 45 * step) % 360) ∧
    (0 ≤ (s.lastRotation + 45 * step) % 360 ∧ (s.lastRotation + 45 * step) % 360 < 360) ∧
    (s.lastRotation = 0 → stepTarget s "r" 1 = (s.lastHorizontal, s.lastVertical, 45)) ∧
    (s.lastRotation = 315 → stepTarget s "r" 1 = (s.lastHorizontal, s.lastVertical, 0)) := by
  refine ⟨stepTarget_rotate s step h0 h360 hk, ⟨by omega, by omega⟩, ?_, ?_⟩ <;>
    intro hrot <;>
    rw [stepTarget_rotate s 1 h0 h360 (Or.inl rfl), hrot] <;>
    exact congrArg _ (congrArg _ (by decide))

/-- Witness for `rotate_formula`: the wrap-around instance, rotation 315
stepped by +1. -/
theorem rotate_formula_witness :
    (0 ≤ ({ initialVisualState with lastRotation := 315 } : VisualState).lastRotation) ∧
    (({ initialVisualState with lastRotation := 315 } : VisualState).lastRotation < 360) ∧
    (stepTarget { initialVisualState with lastRotation := 315 } "r" 1 =
      (({ initialVisualState with lastRotation := 315 } : VisualState).lastHorizontal,
       ({ initialVisualState with lastRotation := 315 } : VisualState).lastVertical,
       (({ initialVisualState with lastRotation := 315 } : VisualState).lastRotation + 45 * 1) % 360) ∧
     (0 ≤ (({ initialVisualState with lastRotation := 315 } : VisualState).lastRotation + 45 * 1) % 360 ∧
      (({ initialVisualState with lastRotation := 315 } : VisualState).lastRotation + 45 * 1) % 360 < 360) ∧
     (({ initialVisualState with lastRotation := 315 } : VisualState).lastRotation = 0 →
       stepTarget { initialVisualState with lastRotation := 315 } "r" 1 =
         (({ initialVisualState with lastRotation := 315 } : VisualState).lastHorizontal,
          ({ initialVisualState with lastRotation := 315 } : VisualState).lastVertical, 45)) ∧
     (({ initialVisualState with lastRotation := 315 } : VisualState).lastRotation = 315 →
       stepTarget { initialVisualState with lastRotation := 315 } "r" 1 =
         (({ initialVisualState with lastRotation := 315 } : VisualState).lastHorizontal,
          ({ initialVisualState with lastRotation := 315 } : VisualState).lastVertical, 0))) :=
  ⟨by decide, by decide,
   rotate_formula { initialVisualState with lastRotation := 315 } 1
     (by decide) (by decide) (Or.inl rfl)⟩

/-- C3: when the computed target pose has no matching record in the data
points, `Visual.step` leaves the entire state (in particular the pose)
unchanged and emits no selection event. -/
theorem move_not_found_noop (s : VisualState) (direction : String) (step : Int)
    (h : findId s.dataPoints
        (positionMetadata (stepTarget s direction step).1
          (stepTarget s direction step).2.1 (stepTarget s direction step).2.2) = none) :
    Visual.step s direction step = (s, []) :=
  step_of_findId_none h

/-- Witness for `move_not_found_noop`: `move(translate, +1)` at rotation 0
targets (1,2,0), which is absent, so the pose stays (1,1,0) and nothing is
emitted. -/
theorem move_not_found_noop_witness :
    findId c3State.dataPoints
        (positionMetadata (stepTarget c3State "d" 1).1
          (stepTarget c3State "d" 1).2.1 (stepTarget c3State "d" 1).2.2) = none ∧
    Visual.step c3State "d" 1 = (c3State, []) :=
  ⟨by decide, move_not_found_noop c3State "d" 1 (by decide)⟩

/-- C4: when the computed target pose matches a record in the data points,
`Visual.step` commits the target pose as the new state and emits exactly
one selection event, carrying the identifier of a matching record. -/
theorem move_found_commits (s : VisualState) (direction : String) (step : Int)
    (sid : SelectionId)
    (h : findId s.dataPoints
        (positionMetadata (stepTarget s direction step).1
          (stepTarget s direction step).2.1 (stepTarget s direction step).2.2) = some sid) :
    Visual.step s direction step =
      ({ s with lastHorizontal := (stepTarget s direction step).1,
                lastVertical := (stepTarget s direction step).2.1,
                lastRotation := (stepTarget s direction step).2.2 }, [sid]) ∧
    ∃ dp ∈ s.dataPoints, dp.selectionId = sid ∧
      dp.selectionId.metadata =
        positionMetadata (stepTarget s direction step).1
          (stepTarget s direction step).2.1 (stepTarget s direction step).2.2 := by
  refine ⟨step_of_findId_some h, ?_⟩
  obtain ⟨dp, hmem, hsel, hmd⟩ := findId_eq_some h
  exact ⟨dp, hmem, hsel, by rw [hsel]; exact hmd⟩

/-- Witness for `move_found_commits`: `move(translate, +1)` at rotation 0
targets (1,2,0), which is present, so the pose becomes (1,2,0) and its
record's identifier is emitted. -/
theorem move_found_commits_witness :
    findId c4State.dataPoints
        (positionMetadata (stepTarget c4State "d" 1).1
          (stepTarget c4State "d" 1).2.1 (stepTarget c4State "d" 1).2.2) =
      some ⟨"X1Y2V0"⟩ ∧
    (Visual.step c4State "d" 1 =
      ({ c4State with lastHorizontal := (stepTarget c4State "d" 1).1,
                      lastVertical := (stepTarget c4State "d" 1).2.1,
                      lastRotation := (stepTarget c4State "d" 1).2.2 }, [⟨"X1Y2V0"⟩]) ∧
     ∃ dp ∈ c4State.dataPoints, dp.selectionId = (⟨"X1Y2V0"⟩ : SelectionId) ∧
       dp.selectionId.metadata =
         positionMetadata (stepTarget c4State "d" 1).1
           (stepTarget c4State "d" 1).2.1 (stepTarget c4State "d" 1).2.2) :=
  ⟨by decide, move_found_commits c4State "d" 1 ⟨"X1Y2V0"⟩ (by decide)⟩

/-- C10: for a direction outside d and r, `Visual.step` computes a target
equal to the current pose, so the stored pose components are unchanged
afterwards, but when the current pose itself matches a record in the table
that record's selection event is still emitted. -/
theorem unknown_direction_frame (s : VisualState) (direction : String) (step : Int)
    (hd : direction ≠ "d") (hr : direction ≠ "r") :
    stepTarget s direction step =
      (s.lastHorizontal, s.lastVertical, s.lastRotation) ∧
    (Visual.step s direction step).1.lastHorizontal = s.lastHorizontal ∧
    (Visual.step s direction step).1.lastVertical = s.lastVertical ∧
    (Visual.step s direction step).1.lastRotation = s.lastRotation ∧
    (Visual.step s direction step).2 =
      (findId s.dataPoints
        (positionMetadata s.lastHorizontal s.lastVertical s.lastRotation)).toList := by
  have ht : stepTarget s direction step =
      (s.lastHorizontal, s.lastVertical, s.lastRotation) := by
    rw [stepTarget, if_neg hd, if_neg hr]
  have hmd : positionMetadata (stepTarget s direction step).1
      (stepTarget s direction step).2.1 (stepTarget s direction step).2.2 =
      positionMetadata s.lastHorizontal s.lastVertical s.lastRotation := by rw [ht]
  cases h : findId s.dataPoints
      (positionMetadata (stepTarget s direction step).1
        (stepTarget s direction step).2.1 (stepTarget s direction step).2.2) with
  | none =>
      rw [step_of_findId_none h]
      rw [hmd] at h
      rw [h]
      exact ⟨ht, rfl, rfl, rfl, rfl⟩
  | some sid =>
      rw [step_of_findId_some h]
      rw [hmd] at h
      rw [h]
      refine ⟨ht, ?_, ?_, ?_, rfl⟩
      · show (stepTarget s direction step).1 = s.lastHorizontal
        rw [ht]
      · show (stepTarget s direction step).2.1 = s.lastVertical
        rw [ht]
      · show (stepTarget s direction step).2.2 = s.lastRotation
        rw [ht]

/-- Witness for `unknown_direction_frame`: direction "x" leaves the pose at
(1,1,0) but still emits the selection for the record of (1,1,0). -/
theorem unknown_direction_frame_witness :
    (("x" : String) ≠ "d") ∧ (("x" : String) ≠ "r") ∧
    (stepTarget c10State "x" 1 =
      (c10State.lastHorizontal, c10State.lastVertical, c10State.lastRotation) ∧
    (Visual.step c10State "x" 1).1.lastHorizontal = c10State.lastHorizontal ∧
    (Visual.step c10State "x" 1).1.lastVertical = c10State.lastVertical ∧
    (Visual.step c10State "x" 1).1.lastRotation = c10State.lastRotation ∧
    (Visual.step c10State "x" 1).2 =
      (findId c10State.dataPoints
        (positionMetadata c10State.lastHorizontal c10State.lastVertical
          c10State.lastRotation)).toList) :=
  ⟨by decide, by decide,
   unknown_direction_frame c10State "x" 1 (by decide) (by decide)⟩

theorem step_emits_nil {s : VisualState} {direction : String} {step : Int}
    (h : (Visual.step s direction step).2 = []) :
    (Visual.step s direction step).1 = s := by
  cases hfind : findId s.dataPoints
      (positionMetadata (stepTarget s direction step).1
        (stepTarget s direction step).2.1 (stepTarget s direction step).2.2) with
  | none => rw [step_of_findId_none hfind]
  | some sid => rw [step_of_findId_some hfind] at h; simp at h

theorem step_emits_ne_nil {s : VisualState} {direction : String} {step : Int}
    (h : ¬((Visual.step s direction step).2 = [])) :
    (Visual.step s direction step).1 =
      { s with lastHorizontal := (stepTarget s direction step).1,
               lastVertical := (stepTarget s direction step).2.1,
               lastRotation := (stepTarget s direction step).2.2 } := by
  cases hfind : findId s.dataPoints
      (positionMetadata (stepTarget s direction step).1
        (stepTarget s direction step).2.1 (stepTarget s direction step).2.2) with
  | none => rw [step_of_findId_none hfind] at h; exact absurd rfl h
  | some sid => rw [step_of_findId_some hfind]

/-- C5: in every state reachable from the initial default pose (1, 1, 0)
via any sequence of moves (with refreshes allowed in between), the rotation
component is a multiple of 45 lying in [0, 360). -/
theorem reachable_rotation_multiple (s : VisualState) (h : Reachable s) :
    45 ∣ s.lastRotation ∧ 0 ≤ s.lastRotation ∧ s.lastRotation < 360 :=
  reachable_rot_valid h

/-- Witness for `reachable_rotation_multiple` at the constructor state. -/
theorem reachable_rotation_multiple_witness :
    Reachable initialVisualState ∧
    (45 ∣ initialVisualState.lastRotation ∧ 0 ≤ initialVisualState.lastRotation ∧
      initialVisualState.lastRotation < 360) :=
  ⟨Reachable.init, reachable_rotation_multiple initialVisualState Reachable.init⟩

/-- C6 fails as stated: from the reachable state with pose (1, 1, 0) and
table {(1, 1, 315)}, `move(rotate, +1)` targets (1, 1, 45), which is absent,
so it is a no-op; the following `move(rotate, -1)` targets (1, 1, 315),
which is present and commits, leaving rotation 315 ≠ 0 (mod 360). -/
theorem rotate_roundtrip_cex :
    Reachable c6State ∧
    c6State.lastRotation % 360 = 0 ∧
    (Visual.step (Visual.step c6State "r" 1).1 "r" (-1)).1.lastRotation % 360 = 315 ∧
    ¬((Visual.step (Visual.step c6State "r" 1).1 "r" (-1)).1.lastRotation % 360 =
      c6State.lastRotation % 360) :=
  ⟨Reachable.update _ _ Reachable.init, by decide, by decide, by decide⟩

/-- C6 amended: for every reachable state, `move(rotate, +1)` followed by
`move(rotate, -1)` returns the rotation to its original value provided the
two lookups agree (both moves commit, or both are no-ops); a mixed pair can
strand the rotation 45 away, as `rotate_roundtrip_cex` shows. -/
theorem rotate_roundtrip_amended (s : VisualState) (h : Reachable s)
    (hsame : ((Visual.step s "r" 1).2 = [] ↔
      (Visual.step (Visual.step s "r" 1).1 "r" (-1)).2 = [])) :
    (Visual.step (Visual.step s "r" 1).1 "r" (-1)).1.lastRotation = s.lastRotation := by
  obtain ⟨h45, h0, h360⟩ := reachable_rot_valid h
  cases hfind1 : findId s.dataPoints
      (positionMetadata (stepTarget s "r" 1).1
        (stepTarget s "r" 1).2.1 (stepTarget s "r" 1).2.2) with
  | none =>
      have e1 := step_of_findId_none hfind1
      rw [e1] at hsame ⊢
      have h2 : (Visual.step s "r" (-1)).2 = [] := hsame.mp rfl
      show (Visual.step s "r" (-1)).1.lastRotation = s.lastRotation
      rw [step_emits_nil h2]
  | some sid =>
      have e1 := step_of_findId_some hfind1
      rw [e1] at hsame ⊢
      have hne : ¬((Visual.step
          { s with lastHorizontal := (stepTarget s "r" 1).1,
                   lastVertical := (stepTarget s "r" 1).2.1,
                   lastRotation := (stepTarget s "r" 1).2.2 } "r" (-1)).2 = []) := by
        intro hnil
        have : ([sid] : List SelectionId) = [] := hsame.mpr hnil
        simp at this
      have e2 := step_emits_ne_nil hne
      show (Visual.step
          { s with lastHorizontal := (stepTarget s "r" 1).1,
                   lastVertical := (stepTarget s "r" 1).2.1,
                   lastRotation := (stepTarget s "r" 1).2.2 } "r" (-1)).1.lastRotation =
        s.lastRotation
      rw [e2]
      show (stepTarget
          { s with lastHorizontal := (stepTarget s "r" 1).1,
                   lastVertical := (stepTarget s "r" 1).2.1,
                   lastRotation := (stepTarget s "r" 1).2.2 } "r" (-1)).2.2 = s.lastRotation
      have hr1 : ({ s with
          lastHorizontal := (stepTarget s "r" 1).1,
          lastVertical := (stepTarget s "r" 1).2.1,
          lastRotation := (stepTarget s "r" 1).2.2 } : VisualState).lastRotation =
          (s.lastRotation + 45 * 1) % 360 := by
        show (stepTarget s "r" 1).2.2 = _
        rw [stepTarget_rotate s 1 h0 h360 (Or.inl rfl)]
      rw [stepTarget_rotate _ (-1) (by rw [hr1]; omega) (by rw [hr1]; omega) (Or.inr rfl)]
      show (({ s with
          lastHorizontal := (stepTarget s "r" 1).1,
          lastVertical := (stepTarget s "r" 1).2.1,
          lastRotation := (stepTarget s "r" 1).2.2 } : VisualState).lastRotation +
        45 * (-1)) % 360 = s.lastRotation
      rw [hr1]
      omega

/-- Witness for `rotate_roundtrip_amended`: with table {(1,1,0), (1,1,45)}
both rotations commit and the rotation returns to 0. -/
theorem rotate_roundtrip_amended_witness :
    Reachable c6WitState ∧
    ((Visual.step c6WitState "r" 1).2 = [] ↔
      (Visual.step (Visual.step c6WitState "r" 1).1 "r" (-1)).2 = []) ∧
    (Visual.step (Visual.step c6WitState "r" 1).1 "r" (-1)).1.lastRotation =
      c6WitState.lastRotation :=
  ⟨Reachable.update _ _ Reachable.init, by decide,
   rotate_roundtrip_amended c6WitState (Reachable.update _ _ Reachable.init) (by decide)⟩

/-- C7 fails as stated: after a successful move to (1, 2, 0) a refresh can
replace the table by one without that pose; the committed pose then matches
no record of the current table, and it is not the default pose either (a
successful move has occurred and vertical is 2, not 1). -/
theorem pose_in_table_cex :
    Reachable c7State ∧
    c7State.lastHorizontal = 1 ∧ c7State.lastVertical = 2 ∧ c7State.lastRotation = 0 ∧
    c7State.dataPoints = [] ∧
    findId c7State.dataPoints
      (positionMetadata c7State.lastHorizontal c7State.lastVertical c7State.lastRotation) =
      none ∧
    ¬(c7State.lastVertical = 1) :=
  ⟨Reachable.update _ _ (Reachable.move _ "d" 1 (Reachable.update _ _ Reachable.init)
      (Or.inl rfl)),
   by decide, by decide, by decide, by decide, by decide, by decide⟩

theorem reachableFrom_dataPoints {dps : List CategoryDataPoint} {vs : VisualSettings}
    {s : VisualState} (h : ReachableFrom dps vs s) : s.dataPoints = dps := by
  induction h with
  | init => rfl
  | move s direction step hs ih => rw [(step_frame s direction step).1, ih]

theorem mem_eq_of_pairwise_key {l : List CategoryDataPoint}
    (hp : l.Pairwise (fun a b => a.selectionId.metadata ≠ b.selectionId.metadata))
    {a b : CategoryDataPoint} (ha : a ∈ l) (hb : b ∈ l)
    (hab : a.selectionId.metadata = b.selectionId.metadata) : a = b := by
  induction l with
  | nil => cases ha
  | cons x xs ih =>
      rw [List.pairwise_cons] at hp
      rcases List.mem_cons.mp ha with ha1 | ha2
      · rcases List.mem_cons.mp hb with hb1 | hb2
        · rw [ha1, hb1]
        · exfalso
          apply hp.1 b hb2
          rw [← ha1]
          exact hab
      · rcases List.mem_cons.mp hb with hb1 | hb2
        · exfalso
          apply hp.1 a ha2
          rw [← hb1]
          exact hab.symm
        · exact ih hp.2 ha2 hb2

/-- C7 amended: as long as the table loaded by the first refresh is never
replaced — and that table holds, as the spec's PositionTable does, one
record per (horizontal, vertical, rotation) combination, i.e. its position
keys are pairwise distinct — the committed pose always corresponds to
exactly one PositionRecord of that table, or it is the initial default pose
(1, 1, 0) (the case before any successful move); a later refresh can orphan
the committed pose, as `pose_in_table_cex` shows. -/
theorem pose_in_table_amended (dps : List CategoryDataPoint) (vs : VisualSettings)
    (s : VisualState) (h : ReachableFrom dps vs s)
    (hwf : dps.Pairwise (fun a b => a.selectionId.metadata ≠ b.selectionId.metadata)) :
    (∃! dp, dp ∈ s.dataPoints ∧ dp.selectionId.metadata =
        positionMetadata s.lastHorizontal s.lastVertical s.lastRotation) ∨
    (s.lastHorizontal = 1 ∧ s.lastVertical = 1 ∧ s.lastRotation = 0) := by
  induction h with
  | init => exact Or.inr ⟨rfl, rfl, rfl⟩
  | move s direction step hs ih =>
      cases hfind : findId s.dataPoints
          (positionMetadata (stepTarget s direction step).1
            (stepTarget s direction step).2.1 (stepTarget s direction step).2.2) with
      | none => rw [step_of_findId_none hfind]; exact ih
      | some sid =>
          rw [step_of_findId_some hfind]
          obtain ⟨dp, hmem, hsel, hmd⟩ := findId_eq_some hfind
          left
          refine ⟨dp, ⟨hmem, by rw [hsel]; exact hmd⟩, ?_⟩
          rintro dp2 ⟨hmem2, hmd2⟩
          have hdps : s.dataPoints = dps := reachableFrom_dataPoints hs
          refine mem_eq_of_pairwise_key hwf (hdps ▸ hmem2) (hdps ▸ hmem) ?_
          rw [hmd2, hsel]
          exact hmd.symm

/-- Witness for `pose_in_table_amended`: with the one-record table
`c7WitTable` loaded and one translate committed to (1, 2, 0), the committed
pose corresponds to exactly one record. -/
theorem pose_in_table_amended_witness :
    ReachableFrom c7WitTable
      { settings := { horizontal := true, vertical := true, incremental := 1 } }
      c7WitState ∧
    c7WitTable.Pairwise (fun a b => a.selectionId.metadata ≠ b.selectionId.metadata) ∧
    ((∃! dp, dp ∈ c7WitState.dataPoints ∧ dp.selectionId.metadata =
        positionMetadata c7WitState.lastHorizontal c7WitState.lastVertical
          c7WitState.lastRotation) ∨
     (c7WitState.lastHorizontal = 1 ∧ c7WitState.lastVertical = 1 ∧
      c7WitState.lastRotation = 0)) :=
  ⟨ReachableFrom.move _ "d" 1 ReachableFrom.init,
   List.pairwise_singleton _ _,
   pose_in_table_amended c7WitTable
     { settings := { horizontal := true, vertical := true, incremental := 1 } }
     c7WitState (ReachableFrom.move _ "d" 1 ReachableFrom.init)
     (List.pairwise_singleton _ _)⟩

/-- C8 fails as stated: with step-increment 2 a translate move displaces the
pose by one unit, exactly as with step-increment 1, not twice as far — the
`incremental` configuration value never reaches the movement logic
(visual.ts reads it at line 154 and uses it only in the property pane at
line 350, while `step` hard-codes `displacement = 1` and
`rotationStep = 45`). -/
theorem incremental_scales_step_cex :
    c8StateOne.visualSettings.settings.incremental = 1 ∧
    c8StateTwo.visualSettings.settings.incremental = 2 ∧
    (Visual.step c8StateOne "d" 1).1.lastVertical - c8StateOne.lastVertical = 1 ∧
    (Visual.step c8StateTwo "d" 1).1.lastVertical - c8StateTwo.lastVertical = 1 ∧
    ¬((Visual.step c8StateTwo "d" 1).1.lastVertical - c8StateTwo.lastVertical =
      2 * ((Visual.step c8StateOne "d" 1).1.lastVertical - c8StateOne.lastVertical)) :=
  ⟨by decide, by decide, by decide, by decide, by decide⟩

/-- C8 amended: the step-increment value is read on each refresh and stored
with the settings, but the move operation ignores it completely — replacing
the settings by any other value changes neither the committed pose nor the
emitted selections of any move; displacement is always one grid unit and the
rotation step always 45 degrees. -/
theorem step_ignores_settings (s : VisualState) (vs : VisualSettings)
    (direction : String) (step : Int) :
    (Visual.step { s with visualSettings := vs } direction step).1 =
      { (Visual.step s direction step).1 with visualSettings := vs } ∧
    (Visual.step { s with visualSettings := vs } direction step).2 =
      (Visual.step s direction step).2 := by
  have htgt : stepTarget { s with visualSettings := vs } direction step =
      stepTarget s direction step := by
    rw [stepTarget, stepTarget]
  cases hfind : findId s.dataPoints
      (positionMetadata (stepTarget s direction step).1
        (stepTarget s direction step).2.1 (stepTarget s direction step).2.2) with
  | none =>
      have hfind2 : findId ({ s with visualSettings := vs } : VisualState).dataPoints
          (positionMetadata (stepTarget { s with visualSettings := vs } direction step).1
            (stepTarget { s with visualSettings := vs } direction step).2.1
            (stepTarget { s with visualSettings := vs } direction step).2.2) = none := by
        rw [htgt]; exact hfind
      rw [step_of_findId_none hfind, step_of_findId_none hfind2]
      exact ⟨rfl, rfl⟩
  | some sid =>
      have hfind2 : findId ({ s with visualSettings := vs } : VisualState).dataPoints
          (positionMetadata (stepTarget { s with visualSettings := vs } direction step).1
            (stepTarget { s with visualSettings := vs } direction step).2.1
            (stepTarget { s with visualSettings := vs } direction step).2.2) = some sid := by
        rw [htgt]; exact hfind
      rw [step_of_findId_some hfind, step_of_findId_some hfind2, htgt]
      exact ⟨rfl, rfl⟩

/-- C9 fails as stated: with a missing vertical role and one data row,
`visualTransform` dereferences the undefined `verticalCategory` inside the
data-point loop and throws a TypeError — the refresh does not produce an
empty PositionTable. -/
theorem refresh_malformed_cex :
    visualTransform c9MalformedDV =
      Except.error "TypeError: verticalCategory is undefined" :=
  rfl

/-- C9 amended: when the bound data has no rows the refresh does produce an
empty table (even with missing roles), and with an empty table every move
is a silent no-op — the state is unchanged and nothing is emitted; but a
missing category role combined with at least one data row makes the refresh
throw instead, as `refresh_malformed_cex` shows. -/
theorem empty_table_move_noop :
    (∃ vm, visualTransform c9EmptyRowsDV = Except.ok vm ∧ vm.dataPoints = []) ∧
    ∀ (s : VisualState) (direction : String) (step : Int),
      s.dataPoints = [] → Visual.step s direction step = (s, []) := by
  refine ⟨⟨{ dataPoints := [],
             numberOfAxis := 1,
             sortedBy := "horizontal",
             settings := { settings :=
               { horizontal := true, vertical := true, incremental := 1 } } },
    rfl, rfl⟩, ?_⟩
  intro s direction step hdps
  apply step_of_findId_none
  rw [hdps]
  rfl

/-- Witness for `empty_table_move_noop` at the constructor state, whose
table is empty. -/
theorem empty_table_move_noop_witness :
    initialVisualState.dataPoints = [] ∧
    Visual.step initialVisualState "d" 1 = (initialVisualState, []) :=
  ⟨rfl, empty_table_move_noop.2 initialVisualState "d" 1 rfl⟩

theorem sqrt_two_gt_one : (1:ℝ) < Real.sqrt 2 := by
  nlinarith [Real.sq_sqrt (by norm_num : (0:ℝ) ≤ 2), Real.sqrt_nonneg 2]

theorem sqrt_two_lt_three : Real.sqrt 2 < 3 := by
  nlinarith [Real.sq_sqrt (by norm_num : (0:ℝ) ≤ 2), Real.sqrt_nonneg 2]

theorem round_sqrt_two_half : round (Real.sqrt 2 / 2) = 1 := by
  rw [round_eq, Int.floor_eq_iff]
  constructor
  · push_cast
    nlinarith [sqrt_two_gt_one]
  · push_cast
    nlinarith [sqrt_two_lt_three]

theorem round_neg_sqrt_two_half : round (-(Real.sqrt 2 / 2)) = -1 := by
  rw [round_eq, Int.floor_eq_iff]
  constructor
  · push_cast
    nlinarith [sqrt_two_lt_three]
  · push_cast
    nlinarith [sqrt_two_gt_one]

theorem round_neg_one_real : round (-1 : ℝ) = -1 := by
  rw [show (-1 : ℝ) = ((-1 : ℤ) : ℝ) by norm_num, round_intCast]

theorem sin_pi_add_real (x : ℝ) : Real.sin (Real.pi + x) = -Real.sin x := by
  rw [Real.sin_add, Real.sin_pi, Real.cos_pi]; ring

theorem cos_pi_add_real (x : ℝ) : Real.cos (Real.pi + x) = -Real.cos x := by
  rw [Real.cos_add, Real.sin_pi, Real.cos_pi]; ring

theorem roundTrigDeg_eq (r : Int) (h45 : 45 ∣ r) (h0 : 0 ≤ r) (h360 : r < 360) :
    roundSinDeg r = round (Real.sin ((r : ℝ) * Real.pi / 180)) ∧
    roundCosDeg r = round (Real.cos ((r : ℝ) * Real.pi / 180)) := by
  obtain ⟨k, rfl⟩ := h45
  have hk0 : 0 ≤ k := by omega
  have hk8 : k < 8 := by omega
  interval_cases k
  · constructor
    · rw [show ((45 * (0:ℤ) : ℤ) : ℝ) * Real.pi / 180 = 0 from by push_cast; ring,
        Real.sin_zero, round_zero]
      decide
    · rw [show ((45 * (0:ℤ) : ℤ) : ℝ) * Real.pi / 180 = 0 from by push_cast; ring,
        Real.cos_zero, round_one]
      decide
  · constructor
    · rw [show ((45 * (1:ℤ) : ℤ) : ℝ) * Real.pi / 180 = Real.pi / 4 from by push_cast; ring,
        Real.sin_pi_div_four, round_sqrt_two_half]
      decide
    · rw [show ((45 * (1:ℤ) : ℤ) : ℝ) * Real.pi / 180 = Real.pi / 4 from by push_cast; ring,
        Real.cos_pi_div_four, round_sqrt_two_half]
      decide
  · constructor
    · rw [show ((45 * (2:ℤ) : ℤ) : ℝ) * Real.pi / 180 = Real.pi / 2 from by push_cast; ring,
        Real.sin_pi_div_two, round_one]
      decide
    · rw [show ((45 * (2:ℤ) : ℤ) : ℝ) * Real.pi / 180 = Real.pi / 2 from by push_cast; ring,
        Real.cos_pi_div_two, round_zero]
      decide
  · constructor
    · rw [show ((45 * (3:ℤ) : ℤ) : ℝ) * Real.pi / 180 = Real.pi - Real.pi / 4 from by
          push_cast; ring,
        Real.sin_pi_sub, Real.sin_pi_div_four, round_sqrt_two_half]
      decide
    · rw [show ((45 * (3:ℤ) : ℤ) : ℝ) * Real.pi / 180 = Real.pi - Real.pi / 4 from by
          push_cast; ring,
        Real.cos_pi_sub, Real.cos_pi_div_four, round_neg_sqrt_two_half]
      decide
  · constructor
    · rw [show ((45 * (4:ℤ) : ℤ) : ℝ) * Real.pi / 180 = Real.pi from by push_cast; ring,
        Real.sin_pi, round_zero]
      decide
    · rw [show ((45 * (4:ℤ) : ℤ) : ℝ) * Real.pi / 180 = Real.pi from by push_cast; ring,
        Real.cos_pi, round_neg_one_real]
      decide
  · constructor
    · rw [show ((45 * (5:ℤ) : ℤ) : ℝ) * Real.pi / 180 = Real.pi + Real.pi / 4 from by
          push_cast; ring,
        sin_pi_add_real, Real.sin_pi_div_four, round_neg_sqrt_two_half]
      decide
    · rw [show ((45 * (5:ℤ) : ℤ) : ℝ) * Real.pi / 180 = Real.pi + Real.pi / 4 from by
          push_cast; ring,
        cos_pi_add_real, Real.cos_pi_div_four, round_neg_sqrt_two_half]
      decide
  · constructor
    · rw [show ((45 * (6:ℤ) : ℤ) : ℝ) * Real.pi / 180 = Real.pi + Real.pi / 2 from by
          push_cast; ring,
        sin_pi_add_real, Real.sin_pi_div_two, round_neg_one_real]
      decide
    · rw [show ((45 * (6:ℤ) : ℤ) : ℝ) * Real.pi / 180 = Real.pi + Real.pi / 2 from by
          push_cast; ring,
        cos_pi_add_real, Real.cos_pi_div_two, neg_zero, round_zero]
      decide
  · constructor
    · rw [show ((45 * (7:ℤ) : ℤ) : ℝ) * Real.pi / 180 =
            Real.pi + (Real.pi - Real.pi / 4) from by push_cast; ring,
        sin_pi_add_real, Real.sin_pi_sub, Real.sin_pi_div_four, round_neg_sqrt_two_half]
      decide
    · rw [show ((45 * (7:ℤ) : ℤ) : ℝ) * Real.pi / 180 =
            Real.pi + (Real.pi - Real.pi / 4) from by push_cast; ring,
        cos_pi_add_real, Real.cos_pi_sub, Real.cos_pi_div_four, neg_neg, round_sqrt_two_half]
      decide

/-- C1: for every current pose (h, v, r) — r ranging over the rotations the
control can hold, the multiples of 45 in [0, 360) (see
`reachable_rot_valid`) — and every step, a translate move computes the
target pose (h + round(sin(r·π/180))·step, v + round(cos(r·π/180))·step, r);
the stored rotation is unchanged whether or not the move commits; and at
r = 90 the target changes horizontal by step and vertical by 0. -/
theorem translate_formula (s : VisualState) (step : Int)
    (h45 : 45 ∣ s.lastRotation) (h0 : 0 ≤ s.lastRotation)
    (h360 : s.lastRotation < 360) :
    stepTarget s "d" step =
      (s.lastHorizontal + round (Real.sin ((s.lastRotation : ℝ) * Real.pi / 180)) * step,
       s.lastVertical + round (Real.cos ((s.lastRotation : ℝ) * Real.pi / 180)) * step,
       s.lastRotation) ∧
    (Visual.step s "d" step).1.lastRotation = s.lastRotation ∧
    (s.lastRotation = 90 →
      stepTarget s "d" step = (s.lastHorizontal + step, s.lastVertical, 90)) := by
  obtain ⟨hsin, hcos⟩ := roundTrigDeg_eq s.lastRotation h45 h0 h360
  refine ⟨?_, ?_, ?_⟩
  · rw [stepTarget, if_pos rfl, hsin, hcos]
  · cases hfind : findId s.dataPoints
        (positionMetadata (stepTarget s "d" step).1
          (stepTarget s "d" step).2.1 (stepTarget s "d" step).2.2) with
    | none => rw [step_of_findId_none hfind]
    | some sid =>
        rw [step_of_findId_some hfind]
        show (stepTarget s "d" step).2.2 = s.lastRotation
        rw [stepTarget, if_pos rfl]
  · intro h90
    have hs90 : roundSinDeg 90 = 1 := by decide
    have hc90 : roundCosDeg 90 = 0 := by decide
    rw [stepTarget, if_pos rfl, h90, hs90, hc90, one_mul, zero_mul, add_zero]

/-- Witness for `translate_formula` at rotation 90, step +1. -/
theorem translate_formula_witness :
    ((45:Int) ∣ c1State.lastRotation) ∧ (0 ≤ c1State.lastRotation) ∧
    (c1State.lastRotation < 360) ∧
    (stepTarget c1State "d" 1 =
      (c1State.lastHorizontal +
        round (Real.sin ((c1State.lastRotation : ℝ) * Real.pi / 180)) * 1,
       c1State.lastVertical +
        round (Real.cos ((c1State.lastRotation : ℝ) * Real.pi / 180)) * 1,
       c1State.lastRotation) ∧
     (Visual.step c1State "d" 1).1.lastRotation = c1State.lastRotation ∧
     (c1State.lastRotation = 90 →
       stepTarget c1State "d" 1 = (c1State.lastHorizontal + 1, c1State.lastVertical, 90))) :=
  ⟨⟨2, rfl⟩, by decide, by decide,
   translate_formula c1State 1 ⟨2, rfl⟩ (by decide) (by decide)⟩
